import Mathlib

/-!
Shallow embedding of the answer-resolution pipeline of the bilingual health
question-answering backend (backend/app/core/ai_models.py,
backend/app/core/medical_qa.py, backend/app/api/routes/health.py).

Modelling conventions:
* Python strings are lists of characters (`Str`); `str.lower()` is ASCII
  lower-casing (the only inputs whose case matters are ASCII).
* Python floats are rationals; the constants involved (0.0, 0.1, 0.3, 0.6,
  0.7, 1.0) are compared exactly, which matches the float behaviour on these
  code paths.
* External effects (BioBERT inference, the DuckDuckGo HTTP call, the
  configuration flags, the wall clock) are oracle fields of an `Env` record;
  a `none`/`false` oracle value models the call raising or failing.  The QA
  initialization raise is not free in the shipped program: `medical_qa.py`
  never imports `AutoTokenizer`/`AutoModelForQuestionAnswering`, so the
  unconditional per-request `medical_qa.initialize()` always dies with
  `NameError` — real executions have `medqaInitRaises = true`, and the
  `false` branch is the repaired-import counterfactual (see `Env`).
* A Python function that can raise is modelled with `Except`/`Option`; the
  orchestrator's top-level `try/except` is the `match` at the root of
  `generate_medical_response`.
-/

set_option maxRecDepth 100000

abbrev Str := List Char

/-- ASCII lower-casing; models `str.lower()` on the inputs relevant here. -/
def lowerStr (t : Str) : Str := t.map Char.toLower

/-- ASCII whitespace, the portion of Python's `\s` and `str.strip()`
whitespace class relevant to this code. -/
def isSpaceChar (c : Char) : Bool :=
  c = ' ' || c = '\t' || c = '\n' || c = '\r' || c = '\x0b' || c = '\x0c'

/-- Characters kept by the normalization regex `[^a-zA-Z0-9\s]` (besides
whitespace). -/
def isAsciiAlnum (c : Char) : Bool :=
  (decide ('a' ≤ c) && decide (c ≤ 'z')) ||
    (decide ('A' ≤ c) && decide (c ≤ 'Z')) ||
    (decide ('0' ≤ c) && decide (c ≤ '9'))

/-- `re.sub(r'[^a-zA-Z0-9\s]', '', text.lower())`: lower-case, then drop
every character that is neither ASCII alphanumeric nor whitespace. -/
def normalizeText (t : Str) : Str :=
  (lowerStr t).filter (fun c => isAsciiAlnum c || isSpaceChar c)

/-- Regex word characters (`\w` / `\b`): alphanumerics and underscore. -/
def isWordChar (c : Char) : Bool := isAsciiAlnum c || c = '_'

/-- Maximal runs of characters satisfying `good` (helper for tokenization). -/
def tokensAux (good : Char → Bool) : Str → Str → List Str
  | [], acc => if acc.isEmpty then [] else [acc.reverse]
  | c :: rest, acc =>
    if good c then tokensAux good rest (c :: acc)
    else if acc.isEmpty then tokensAux good rest []
    else acc.reverse :: tokensAux good rest []

def tokens (good : Char → Bool) (t : Str) : List Str := tokensAux good t []

/-- `re.findall(r"\w+", t)`: maximal runs of word characters. -/
def wordsOf (t : Str) : List Str := tokens isWordChar t

/-- Python `str.split()` with no argument: maximal runs of non-whitespace. -/
def splitWs (t : Str) : List Str := tokens (fun c => !isSpaceChar c) t

/-- Python `str.strip()`: drop leading and trailing whitespace. -/
def stripStr (t : Str) : Str :=
  ((t.dropWhile isSpaceChar).reverse.dropWhile isSpaceChar).reverse

/-- Python's substring test `p in t`: `p` occurs contiguously in `t` (the
empty string occurs in everything). -/
def isSubstrOf (p : Str) : Str → Bool
  | [] => p.isEmpty
  | c :: rest => p.isPrefixOf (c :: rest) || isSubstrOf p rest

/-- Does the text continue with a non-word character (or end) here?  Used for
the trailing `\b` of the word-boundary regex. -/
def boundaryAfter : Str → Bool
  | [] => true
  | c :: _ => !isWordChar c

/-- Helper for `wholeWord`: scan every start position, remembering whether the
previous character was a word character. -/
def wholeWordAux (p : Str) (prevIsWord : Bool) : Str → Bool
  | [] => false
  | c :: rest =>
    (!prevIsWord && p.isPrefixOf (c :: rest) && boundaryAfter ((c :: rest).drop p.length)) ||
      wholeWordAux p (isWordChar c) rest

/-- `re.search(rf'\b{re.escape(p)}\b', t)` for a literal pattern `p` that
begins and ends with a word character (true of every knowledge-base key):
`p` occurs in `t` with no word character immediately before or after. -/
def wholeWord (p t : Str) : Bool := wholeWordAux p false t

/-- The per-entry score of `retrieve_best_context`: the size of the
intersection of the normalized question's word set with the normalized key's
word set, plus the single applicable bonus (+3 whole-word, else +2 suffix,
else +1 substring, else nothing). -/
def scoreFor (question key : Str) : Nat :=
  let nq := normalizeText question
  let qws := wordsOf nq
  let nk := normalizeText key
  let kws := wordsOf nk
  ((qws.dedup.filter (fun w => decide (w ∈ kws))).length) +
    (if wholeWord nk nq then 3
     else if nk.isSuffixOf nq then 2
     else if isSubstrOf nk nq then 1
     else 0)

/-- `self.medical_knowledge`: the fallback knowledge base of
`AIModelManager.__init__`, in source order. -/
def medical_knowledge : List (Str × List (Str × Str)) := [
  ("malaria".data, [
    ("en".data, "Malaria is caused by parasites spread through mosquito bites. Symptoms include high fever, chills, headache, and fatigue. Seek immediate medical attention if you suspect malaria.".data),
    ("ak".data, "Atiridii yɛ ɔyare a ɛfi asan a ɛkɔ so wɔ ɔsram no nipadua mu. Nnuru a wɔde sa atiridii no bi ne chloroquine, artemisinin-based combination therapies (ACTs), ne foforɔ. Sɛ wo susu sɛ wobɛtumi anya atiridii a, kɔ oduruyɛbea ntɛm ara.".data)]),
  ("covid".data, [
    ("en".data, "COVID-19 is a viral respiratory illness. Symptoms include cough, fever, loss of taste/smell, and shortness of breath. Prevent by wearing masks, washing hands, and vaccination.".data),
    ("ak".data, "COVID-19 yɛ yare a ɛfa mframa mu. N'nsɛnhunu ne su, ɔhyew, dɛdɛɛdɛ ne ahomeguare. To ho ban fa mask, hohor wo nsam, na yɛ vaccine.".data)]),
  ("tuberculosis".data, [
    ("en".data, "Tuberculosis (TB) is an infectious disease affecting the lungs. Symptoms: persistent cough, weight loss, night sweats. Treatment requires long-term antibiotics.".data),
    ("ak".data, "Tuberculosis yɛ yare a ɛtɔ mmirika na ɛka nipadua mu. Nsɛnhunu: su a ɛnnware, nipadua mu fam, anadwo susu. Yare yi hia nnuro a wobɛfa akyɛ.".data)]),
  ("typhoid".data, [
    ("en".data, "Typhoid fever is caused by Salmonella bacteria, spread through contaminated food/water. Symptoms: high fever, abdominal pain, diarrhea. Treat with antibiotics.".data),
    ("ak".data, "Typhoid yɛ yare a ɛfi nsuo anaa aduane a ɛho ntew so. Nsɛnhunu: ɔhyew kɛse, yafunu yare, nsu. Fa nnuro kɔhwehwɛ oduruyɛfoɔ.".data)]),
  ("diabetes".data, [
    ("en".data, "Diabetes is a chronic condition where blood sugar is too high. Symptoms: frequent urination, thirst, fatigue. Managed by diet, exercise, and medication.".data),
    ("ak".data, "Sukɔm yɛ ɔyare a mogya mu sukuruwa dɔɔso. Nsɛnhunu: nsuo a wopɛ dodo, home, brɛ. Di aduane pa, yɛ mmirika, na fa nnuro.".data)]),
  ("asthma".data, [
    ("en".data, "Asthma is a condition where airways narrow and swell. Symptoms: wheezing, coughing, chest tightness. Use inhalers and avoid triggers.".data),
    ("ak".data, "Asthma yɛ yare a ɛma mframa kwan to. Nsɛnhunu: ahomeguare, su, yafunu mu den. Fa inhaler na to ho ban.".data)]),
  ("sickle cell".data, [
    ("en".data, "Sickle cell disease affects red blood cells, causing pain, anemia, and infections. Seek regular medical care and stay hydrated.".data),
    ("ak".data, "Sickle cell yɛ yare a ɛka mogya mu. Ede yaw, mogya mu fam, ne yare foforɔ ba. Kɔ oduruyɛbea daa na nom nsuo pii.".data)]),
  ("hypertension".data, [
    ("en".data, "High blood pressure often has no symptoms but can lead to serious health issues. Maintain a healthy diet, exercise regularly, limit alcohol, and avoid smoking.".data),
    ("ak".data, "Mogya a ɛyɛ den kɛse pii no ɛnni nneɛma a ɛda adi, nanso ɛtumi de ɔhaw akɛse aba wo yare mu. Di aduane pa, yɛ mmirika, fa nsa gu, na yɛ mogya mu nsunsuansoɔ nhwehwɛmu daa.".data)]),
  ("headache".data, [
    ("en".data, "Headaches can be caused by stress, dehydration, lack of sleep, eye strain, or underlying conditions. Rest in a quiet, dark room, stay hydrated, and apply cold/warm compress. Seek medical attention if severe or persistent.".data),
    ("ak".data, "Ti yare betumi afi stress, nsuo a wonnom, nna a wonnya, aniwa mu haw, anaa ɔyare foforɔ mu ba. Home wɔ komm ne sum beae, nom nsuo pii, na fa nsuonwini anaa hyew nneɛma to wo ti so.".data)]),
  ("fever".data, [
    ("en".data, "Fever is the body's response to infection. Normal temperature is 98.6°F (37°C). Rest, drink fluids, and use fever reducers if appropriate. Seek medical care if fever exceeds 103°F (39.4°C) or persists.".data),
    ("ak".data, "Ɔhyew yɛ nipadua no ɔkwan a ɔfa so ko tia nyarewa. Nipadua mu hyew a ɛyɛ dɛ yɛ 98.6°F (37°C). Home, nom nsuo pii, na sɛ ɛho hia a, nom nnuro a ɛtumi te ɔhyew so.".data)]),
  ("cough".data, [
    ("en".data, "Coughing helps clear the airways. It can be caused by infection, allergies, or irritants. If cough persists more than 2 weeks, see a doctor.".data),
    ("ak".data, "Su boa ma mframa kwan ho tew. Ɛbetumi afi yare, allergies, anaa nneɛma a ɛhaw. Sɛ su no to so kyɛ, kɔhwehwɛ oduruyɛfoɔ.".data)]),
  ("vomiting".data, [
    ("en".data, "Vomiting can be caused by infections, food poisoning, or other illnesses. Stay hydrated and seek medical advice if severe or persistent.".data),
    ("ak".data, "Nsii betumi afi yare, aduane a ɛho ntew, anaa ɔyare foforɔ. Nom nsuo pii na kɔhwehwɛ oduruyɛfoɔ.".data)]),
  ("rash".data, [
    ("en".data, "Skin rashes can be caused by allergies, infections, or irritants. Keep the area clean and dry. Seek medical care if spreading or severe.".data),
    ("ak".data, "Mmogya betumi afi allergies, yare, anaa nneɛma a ɛhaw. Hwɛ sɛ ɛda ho fɛ na ɛyɛ hyew. Sɛ ɛtrɛw anaa ɛyɛ den a, kɔhwehwɛ oduruyɛfoɔ.".data)]),
  ("paracetamol".data, [
    ("en".data, "Paracetamol is used to reduce pain and fever. Follow dosage instructions and do not exceed the recommended amount.".data),
    ("ak".data, "Paracetamol yɛ aduro a wɔde twa yaw ne ɔhyew so. Di kyerɛwsɛm so na mmfa dodo.".data)]),
  ("oral rehydration".data, [
    ("en".data, "Oral rehydration solution (ORS) treats dehydration, especially from diarrhea. Mix clean water, salt, and sugar as instructed.".data),
    ("ak".data, "ORS boa ma nsuo a ɛyera fi nipadua mu san ba. Fa nsuo, nkyene ne sukuruwa bɔ bom sɛnea wɔkyerɛ.".data)]),
  ("antibiotics".data, [
    ("en".data, "Antibiotics treat bacterial infections. Only use when prescribed by a doctor. Do not misuse or overuse.".data),
    ("ak".data, "Antibiotics yɛ nnuro a wɔde sa yare a ɛfi bacteria mu. Fa no sɛ oduruyɛfoɔ pɛ na mmfa dodo.".data)]),
  ("hand washing".data, [
    ("en".data, "Wash your hands regularly with soap and water to prevent infections.".data),
    ("ak".data, "Hohor wo nsam daa fa samina ne nsuo so na to ban yare.".data)]),
  ("vaccination".data, [
    ("en".data, "Vaccines protect against many diseases. Make sure you and your children are up to date on all vaccinations.".data),
    ("ak".data, "Vaccine boa ma yare pii ho ban. Hwɛ sɛ wo ne wo mma anya vaccine a ehia.".data)])]

/-- Association lookup on a per-entry language map (`language in entry` /
`entry[language]`). -/
def lookupStr (m : List (Str × Str)) (k : Str) : Option Str :=
  (m.find? (fun p => decide (p.1 = k))).map (fun p => p.2)

/-- `entry[language] if language in entry else entry.get("en", "")`. -/
def textFor (entry : List (Str × Str)) (lang : Str) : Str :=
  match lookupStr entry lang with
  | some t => t
  | none => (lookupStr entry ("en".data)).getD []

/-- The running-best loop of `retrieve_best_context`: `best_score` starts at
0, `best_entry` at `None`, and an entry replaces the running best exactly when
its score is strictly greater. -/
def bestLoop (question lang : Str) :
    List (Str × List (Str × Str)) → Nat × Option Str → Nat × Option Str
  | [], acc => acc
  | (key, entry) :: rest, acc =>
    if acc.1 < scoreFor question key then
      bestLoop question lang rest (scoreFor question key, some (textFor entry lang))
    else
      bestLoop question lang rest acc

/-- `AIModelManager.retrieve_best_context`: returns the best entry's text when
`best_score >= 1 and best_entry` (Python truthiness: non-`None` and
non-empty), else `None`. -/
def retrieve_best_context (question lang : Str) : Option Str :=
  match bestLoop question lang medical_knowledge (0, none) with
  | (sc, some t) => if 1 ≤ sc ∧ t ≠ [] then some t else none
  | (_, none) => none

/-! Spec-side restatement of the matcher, following the claim's words: compute
every entry's score, take the highest, keep the first-seen entry on ties, and
return its text in the requested language exactly when the best score is at
least 1. -/

def bestScoreFrom (question : Str) (a : Nat) : List (Str × List (Str × Str)) → Nat
  | [] => a
  | (key, _) :: rest => bestScoreFrom question (max a (scoreFor question key)) rest

/-- The highest score any knowledge-base entry attains (0 when none scores). -/
def bestScore (question : Str) : Nat := bestScoreFrom question 0 medical_knowledge

/-- The first-seen entry attaining the highest score. -/
def firstBest (question : Str) : Option (Str × List (Str × Str)) :=
  medical_knowledge.find? (fun e => decide (bestScore question ≤ scoreFor question e.1))

/-- The claim's description of the matcher. -/
def retrieveSpec (question lang : Str) : Option Str :=
  if 1 ≤ bestScore question then
    (firstBest question).map (fun e => textFor e.2 lang)
  else none

lemma le_bestScoreFrom (question : Str) :
    ∀ (kb : List (Str × List (Str × Str))) (a : Nat), a ≤ bestScoreFrom question a kb := by
  intro kb
  induction kb with
  | nil => intro a; exact Nat.le_refl a
  | cons e rest ih =>
    intro a
    obtain ⟨key, entry⟩ := e
    exact Nat.le_trans (Nat.le_max_left a (scoreFor question key)) (ih _)

/-- Characterization of the running-best loop: its first component is the
maximum of the accumulator and all scores, and its second component is the
text of the first entry attaining that maximum (unchanged when no entry
strictly improves on the accumulator). -/
lemma bestLoop_eq (question lang : Str) :
    ∀ (kb : List (Str × List (Str × Str))) (a : Nat) (ob : Option Str),
      bestLoop question lang kb (a, ob) =
        (bestScoreFrom question a kb,
          if bestScoreFrom question a kb = a then ob
          else
            (kb.find? (fun e => decide (bestScoreFrom question a kb ≤ scoreFor question e.1))).map
              (fun e => textFor e.2 lang)) := by
  intro kb
  induction kb with
  | nil => intro a ob; simp [bestLoop, bestScoreFrom]
  | cons e rest ih =>
    intro a ob
    obtain ⟨key, entry⟩ := e
    by_cases h : a < scoreFor question key
    · have hmax : max a (scoreFor question key) = scoreFor question key :=
        Nat.max_eq_right (Nat.le_of_lt h)
      have hM : bestScoreFrom question a ((key, entry) :: rest) =
          bestScoreFrom question (scoreFor question key) rest := by
        simp [bestScoreFrom, hmax]
      have hge : scoreFor question key ≤ bestScoreFrom question (scoreFor question key) rest :=
        le_bestScoreFrom question rest _
      have hne : bestScoreFrom question a ((key, entry) :: rest) ≠ a := by
        rw [hM]
        exact Nat.ne_of_gt (Nat.lt_of_lt_of_le h hge)
      rw [show bestLoop question lang ((key, entry) :: rest) (a, ob) =
            bestLoop question lang rest
              (scoreFor question key, some (textFor entry lang)) by
        simp [bestLoop, h]]
      rw [ih (scoreFor question key) (some (textFor entry lang))]
      by_cases heq : bestScoreFrom question (scoreFor question key) rest = scoreFor question key
      · -- the head entry attains the maximum: the loop keeps its text and
        -- `find?` selects the head
        have hfind :
            ((key, entry) :: rest).find?
                (fun e =>
                  decide (bestScoreFrom question a ((key, entry) :: rest) ≤ scoreFor question e.1)) =
              some (key, entry) := by
          apply List.find?_cons_of_pos
          simp only [hM, heq]
          exact decide_eq_true (Nat.le_refl _)
        rw [if_neg hne, hfind]
        simp [hM, heq]
      · -- the maximum is attained strictly later: skip the head
        have hlt : scoreFor question key < bestScoreFrom question (scoreFor question key) rest :=
          Nat.lt_of_le_of_ne hge (fun hx => heq hx.symm)
        have hfind :
            ((key, entry) :: rest).find?
                (fun e =>
                  decide (bestScoreFrom question a ((key, entry) :: rest) ≤ scoreFor question e.1)) =
              rest.find?
                (fun e =>
                  decide (bestScoreFrom question a ((key, entry) :: rest) ≤ scoreFor question e.1)) := by
          apply List.find?_cons_of_neg
          simp only [hM, decide_eq_true_eq]
          exact Nat.not_le_of_lt hlt
        rw [if_neg hne, hfind]
        simp [hM, heq]
    · have hle : scoreFor question key ≤ a := Nat.le_of_not_lt h
      have hmax : max a (scoreFor question key) = a := Nat.max_eq_left hle
      have hM : bestScoreFrom question a ((key, entry) :: rest) =
          bestScoreFrom question a rest := by
        simp [bestScoreFrom, hmax]
      rw [show bestLoop question lang ((key, entry) :: rest) (a, ob) =
            bestLoop question lang rest (a, ob) by simp [bestLoop, h]]
      rw [ih a ob]
      by_cases heq : bestScoreFrom question a rest = a
      · rw [hM, if_pos heq, if_pos heq]
      · have hgt : a < bestScoreFrom question a rest :=
          Nat.lt_of_le_of_ne (le_bestScoreFrom question rest a) (fun hx => heq hx.symm)
        have hfind :
            ((key, entry) :: rest).find?
                (fun e =>
                  decide (bestScoreFrom question a ((key, entry) :: rest) ≤ scoreFor question e.1)) =
              rest.find?
                (fun e =>
                  decide (bestScoreFrom question a ((key, entry) :: rest) ≤ scoreFor question e.1)) := by
          apply List.find?_cons_of_neg
          simp only [hM, decide_eq_true_eq]
          exact Nat.not_le_of_lt (Nat.lt_of_le_of_lt hle hgt)
        rw [hM, if_neg heq, if_neg heq, ← hM, hfind, hM]

/-- Every entry in the concrete knowledge base carries a non-empty text for
its `en` key and only non-empty texts. -/
lemma medical_knowledge_texts :
    ∀ e ∈ medical_knowledge,
      (lookupStr e.2 ("en".data)).isSome = true ∧ ∀ p ∈ e.2, p.2 ≠ [] := by
  decide

lemma lookupStr_mem {m : List (Str × Str)} {k t : Str}
    (h : lookupStr m k = some t) : ∃ key, (key, t) ∈ m := by
  unfold lookupStr at h
  cases hf : m.find? (fun p => decide (p.1 = k)) with
  | none => rw [hf] at h; simp at h
  | some p =>
    rw [hf] at h
    simp only [Option.map_some'] at h
    have ht : p.2 = t := Option.some.inj h
    have hm := List.mem_of_find?_eq_some hf
    refine ⟨p.1, ?_⟩
    rw [← ht]
    simpa using hm

/-- For every entry of the concrete knowledge base and every requested
language, the text the matcher would hand back is non-empty, so the Python
truthiness test on `best_entry` never rejects a selected entry. -/
lemma textFor_ne_nil {e : Str × List (Str × Str)} (he : e ∈ medical_knowledge)
    (lang : Str) : textFor e.2 lang ≠ [] := by
  obtain ⟨hen, hall⟩ := medical_knowledge_texts e he
  unfold textFor
  cases hl : lookupStr e.2 lang with
  | some t =>
    obtain ⟨key, hmem⟩ := lookupStr_mem hl
    exact hall (key, t) hmem
  | none =>
    cases hen' : lookupStr e.2 ("en".data) with
    | none => rw [hen'] at hen; simp at hen
    | some t =>
      obtain ⟨key, hmem⟩ := lookupStr_mem hen'
      simpa [hen'] using hall (key, t) hmem

/-- Claim C1: for every question string and language, the knowledge-base
matcher computes each entry's score as word-set overlap plus the single
prioritized bonus (+3 whole-word, else +2 suffix, else +1 substring), selects
the highest-scoring entry with first-seen tie-breaking, and returns that
entry's text in the requested language (falling back to English) exactly when
the best score is at least 1, and no match otherwise. -/
theorem retrieve_best_context_matches_spec (question lang : Str) :
    retrieve_best_context question lang = retrieveSpec question lang := by
  unfold retrieve_best_context retrieveSpec firstBest bestScore
  rw [bestLoop_eq]
  by_cases h0 : bestScoreFrom question 0 medical_knowledge = 0
  · simp [h0]
  · have h1 : 1 ≤ bestScoreFrom question 0 medical_knowledge :=
      Nat.one_le_iff_ne_zero.mpr h0
    rw [if_neg h0, if_pos h1]
    cases hf : medical_knowledge.find?
        (fun e => decide (bestScoreFrom question 0 medical_knowledge ≤ scoreFor question e.1)) with
    | none => simp
    | some e =>
      have hne : textFor e.2 lang ≠ [] :=
        textFor_ne_nil (List.mem_of_find?_eq_some hf) lang
      simp [h1, hne]

/-- Sanity check mirroring the spec's reference example: the malaria entry
wins on a whole-word match. -/
lemma retrieve_malaria_example :
    retrieve_best_context ("What are the symptoms of malaria?".data) ("en".data) =
      some ("Malaria is caused by parasites spread through mosquito bites. Symptoms include high fever, chills, headache, and fatigue. Seek immediate medical attention if you suspect malaria.".data) := by
  decide

/-! ## Language detection (AIModelManager.detect_language) -/

/-- The fixed Akan marker word list of `detect_language`, in source order. -/
def akan_words : List Str :=
  ["wo".data, "me".data, "yɛ".data, "na".data, "sɛ".data, "wɔ".data, "no".data,
   "mu".data, "ho".data, "ba".data, "kɔ".data, "nom".data, "ti".data, "yare".data]

/-- `AIModelManager.detect_language`: lower-case the text, count the marker
words that occur in it as substrings (`word in text_lower`), return `"ak"`
when the count reaches 2 and `"en"` otherwise. -/
def detect_language (text : Str) : Str :=
  if 2 ≤ (akan_words.filter (fun w => isSubstrOf w (lowerStr text))).length then
    "ak".data
  else
    "en".data

/-- Spec-side count: how many distinct words of the fixed marker list occur
in the lower-cased text. -/
def akanMarkerCount (text : Str) : Nat :=
  ((akan_words.filter (fun w => isSubstrOf w (lowerStr text))).dedup).length

lemma detect_language_cases (text : Str) :
    detect_language text = "ak".data ∨ detect_language text = "en".data := by
  unfold detect_language
  by_cases h : 2 ≤ (akan_words.filter (fun w => isSubstrOf w (lowerStr text))).length
  · left; rw [if_pos h]
  · right; rw [if_neg h]

/-! ## Emergency triage (AIModelManager.check_emergency_condition) -/

structure EmergencyRule where
  keywords : List Str
  respEn : Str
  respAk : Str

/-- The ordered `emergency_conditions` list of
`AIModelManager.check_emergency_condition`, in source order. -/
def emergency_conditions : List EmergencyRule := [
  { keywords := ["chest pain".data, "heart attack".data, "can't breathe".data,
                 "difficulty breathing".data, "severe pain".data],
    respEn := "⚠️ EMERGENCY: You may be experiencing a serious medical condition. Please call emergency services immediately or go to the nearest hospital.".data,
    respAk := "⚠️ NTƐM YI: Wobetumi anya ɔyare a ɛyɛ hu. Yɛsrɛ wo frɛ ɔyarefoɔ anaa kɔ ɔyarekurom a ɛbɛn ha ntɛm ara.".data },
  { keywords := ["bleeding a lot".data, "severe bleeding".data, "can't stop bleeding".data,
                 "blood everywhere".data],
    respEn := "⚠️ EMERGENCY: Severe bleeding requires immediate medical attention. Apply pressure to the wound and call emergency services right away.".data,
    respAk := "⚠️ NTƐM YI: Mogya a ɛpue pii hia ayaresa ntɛm. Fa wo nsa to ayaresa no so na frɛ ɔyarefoɔ ntɛm ara.".data },
  { keywords := ["can't breathe".data, "choking".data, "suffocating".data, "no air".data],
    respEn := "⚠️ EMERGENCY: Difficulty breathing can be life-threatening. Call emergency services immediately.".data,
    respAk := "⚠️ NTƐM YI: Sɛ wunntumi nhom yie a, ɛtumi ayɛ hu. Frɛ ɔyarefoɔ ntɛm ara.".data },
  { keywords := ["allergic reaction".data, "throat closing".data, "swelling face".data,
                 "swelling lips".data, "anaphylaxis".data],
    respEn := "⚠️ EMERGENCY: Severe allergic reaction can be life-threatening. Use an epinephrine auto-injector if available and call emergency services immediately.".data,
    respAk := "⚠️ NTƐM YI: Sɛ wunntumi nhom yie a, ɛtumi ayɛ hu. Fa wo nsa to ayaresa no so na frɛ ɔyarefoɔ ntɛm ara.".data },
  { keywords := ["passed out".data, "unconscious".data, "blacked out".data, "fainted".data],
    respEn := "⚠️ EMERGENCY: Loss of consciousness requires immediate medical attention. Call emergency services right away.".data,
    respAk := "⚠️ NTƐM YI: Sɛ wo ani nnye ho a, ɛhia sɛ wofrɛ ɔyarefoɔ ntɛm ara.".data }]

/-- `AIModelManager.check_emergency_condition`: lower-case the text, return
the first rule one of whose keyword substrings occurs in it, rendered in the
requested language via `response.get(language, response['en'])`. -/
def check_emergency_condition (text lang : Str) : Option Str :=
  (emergency_conditions.find?
      (fun r => r.keywords.any (fun k => isSubstrOf k (lowerStr text)))).map
    (fun r => if lang = "ak".data then r.respAk else r.respEn)

/-! ## The model-backed answerer (MedicalQA.answer_question, the second —
effective — class definition in backend/app/core/medical_qa.py) -/

/-- Oracle for one successful BioBERT tokenize/infer/decode round in the
`context != question` branch of `answer_question`:
`spanConf` is the averaged start/end softmax score compared with the 0.3
threshold, `spanText` the decoded answer span, and `maxStartProb` the value
`float(torch.max(torch.softmax(outputs.start_logits, dim=1)))` that the
function reports as `"confidence"`. -/
structure Inference where
  spanConf : ℚ
  spanText : Str
  maxStartProb : ℚ

/-- The dictionary `answer_question` hands back, as seen by the orchestrator:
only the keys the orchestrator reads. The exception dictionary carries no
usable string answer (its `"answer"` value is an un-awaited coroutine) and no
`"confidence"` key. -/
structure QADict where
  answer : Option Str
  response : Option Str
  source : Option Str
  confidence : Option ℚ

/-- The static fallback strings of `MedicalQA._get_fallback_response`.  The
web branch inside that helper always raises `NameError` (`search_web` is
undefined anywhere in the repository) and is caught, so the helper
deterministically returns these strings (`fallbacks.get(language,
fallbacks["en"])`). -/
def mqa_fallbacks (lang : Str) : Str :=
  if lang = "ak".data then
    "Mentumi annya nkyerɛaseɛ a ɛfa wo ho asɛm no ho. Sɛ wupɛ nkyerɛkyerɛ a ɛte saa a, yɛsrɛ wo kɔ nhwehwɛmufoɔ nkyɛn wɔ ayaresa mu.".data
  else
    "I couldn't find a specific answer to your medical question. For accurate medical advice, please consult with a healthcare professional.".data

/-- The local `answer` of `answer_question` after the threshold test: the
decoded span when the averaged start/end confidence exceeds 0.3, else the
static fallback. -/
def mqa_answer0 (i : Inference) (language : Str) : Str :=
  if (3 : ℚ)/10 < i.spanConf then i.spanText else mqa_fallbacks language

/-- The local `answer` after the final guard: blank answers and answers of
fewer than 3 words are replaced by the static fallback. -/
def mqa_answer1 (i : Inference) (language : Str) : Str :=
  if stripStr (mqa_answer0 i language) = [] ∨ (splitWs (mqa_answer0 i language)).length < 3
  then mqa_fallbacks language
  else mqa_answer0 i language

/-- `MedicalQA.answer_question` (the BioBERT class).  Its first statement is
the unguarded `if not self._initialized: await self.initialize()`
(medical_qa.py:162-163), which sits OUTSIDE the function's `try`.  In the
shipped program `_initialized` can never become `True`: `initialize` raises
`NameError` at medical_qa.py:130 (`AutoTokenizer` is used but never imported
in this module) before the flag assignment, and re-raises (line 144).  So
every real call raises `NameError` to its caller before any answering logic
runs — modelled by the `selfInitRaises` flag, which shares its cause (the
missing import) with `Env.medqaInitRaises` and is `true` in the shipped
program.  The rest of the body is the repaired-import counterfactual: in the
`context == question` branch every path reaches the final `return`, which
reads the undefined local `outputs` and raises `NameError`, and the handler
returns a dictionary without a `"confidence"` key; in the other branch a
raised tokenizer/model error (`inf = none`) lands in the same handler;
otherwise the 0.3 threshold picks the decoded span or the static fallback as
the answer text, short/blank answers are replaced by the static fallback, the
Khaya translation step is skipped (`self.translator` is `None`), and the
reported confidence is the max start-softmax probability. -/
def answer_question (selfInitRaises : Bool) (inf : Option Inference) (question : Str)
    (context : Option Str) (language : Str) : Except Unit QADict :=
  if selfInitRaises then Except.error ()
  else if context = some question then
    Except.ok { answer := none, response := none, source := none, confidence := none }
  else
    match inf with
    | none =>
      Except.ok { answer := none, response := none, source := none, confidence := none }
    | some i =>
      Except.ok { answer := some (mqa_answer1 i language), response := none,
                  source := none, confidence := some i.maxStartProb }

/-! ## Web search (AIModelManager.search_health_info) -/

/-- `TRUSTED_MEDICAL_DOMAINS` from backend/app/core/medical_qa.py. -/
def TRUSTED_MEDICAL_DOMAINS : List Str :=
  ["mayoclinic.org".data, "webmd.com".data, "cdc.gov".data, "who.int".data,
   "nhs.uk".data, "healthline.com".data, "medicalnewstoday.com".data,
   "hopkinsmedicine.org".data, "medlineplus.gov".data, "whoafro.org".data,
   "ghanahealthservice.org".data, "moh.gov.gh".data]

/-- One entry of the DuckDuckGo `RelatedTopics` array; `text = none` models a
missing `Text` key (or a non-dict item, which the `isinstance` check skips
the same way). -/
structure DDGTopic where
  text : Option Str
  firstURL : Option Str

/-- The parsed DuckDuckGo instant-answer payload. -/
structure DDGData where
  abstract : Option Str
  heading : Option Str
  abstractURL : Option Str
  relatedTopics : List DDGTopic

structure SearchResult where
  title : Str
  content : Str
  source : Str

/-- Split on a separator character, keeping empty segments
(Python `str.split(sep)`). -/
def splitOnCharAux (sep : Char) : Str → Str → List Str
  | [], acc => [acc.reverse]
  | c :: rest, acc =>
    if c = sep then acc.reverse :: splitOnCharAux sep rest []
    else splitOnCharAux sep rest (c :: acc)

def splitOnChar (sep : Char) (t : Str) : List Str := splitOnCharAux sep t []

/-- `topic.get('FirstURL', '').split('/')[-1].replace('_', ' ')`. -/
def ddgTitle (url : Str) : Str :=
  (((splitOnChar '/' url).getLast?).getD []).map (fun c => if c = '_' then ' ' else c)

/-- The body of the `RelatedTopics` loop: keep a topic only when its `Text`
value is truthy. -/
def topicResult (t : DDGTopic) : Option SearchResult :=
  match t.text with
  | some txt =>
    if txt = [] then none
    else some { title := ddgTitle (t.firstURL.getD []),
                content := txt,
                source := t.firstURL.getD ("DuckDuckGo".data) }
  | none => none

/-! ## The environment of oracle values for one request -/

/-- External-effect oracles for one `generate_medical_response` call. -/
structure Env where
  /-- whether the unconditional `await self.medical_qa.initialize()`
  (ai_models.py:392-393) raises.  It runs on every request — the guard
  `hasattr(self.medical_qa, 'initialized')` is always `False`, the class only
  ever sets `_initialized` — and in the shipped program it ALWAYS raises:
  `MedicalQA.initialize` references `AutoTokenizer` /
  `AutoModelForQuestionAnswering` (medical_qa.py:130-133), which
  backend/app/core/medical_qa.py never imports, so the call dies with
  `NameError` and re-raises it (line 144).  Real executions therefore have
  this field `true`; the `false` value is the repaired-import counterfactual,
  kept so the otherwise-dead pipeline stages can still be analysed. -/
  medqaInitRaises : Bool
  /-- outcome of the BioBERT round inside `answer_question`;
  `none` = it raised -/
  inference : Option Inference
  /-- `settings.ENABLE_WEB_SEARCH` -/
  webSearchEnabled : Bool
  /-- `settings.MAX_SEARCH_RESULTS` -/
  maxSearchResults : Nat
  /-- whether `self.session` is set -/
  sessionExists : Bool
  /-- the parsed DuckDuckGo payload; `none` = non-200 status, network error
  or any other exception inside the `try` (the function then returns `[]`) -/
  ddg : Option DDGData
  /-- `datetime.utcnow().isoformat()` -/
  now : Str

/-- `AIModelManager.search_health_info`: returns `[]` without searching when
the session is missing or web search is disabled; otherwise collects the
abstract (when truthy) and up to three related topics from the DuckDuckGo
payload, truncated to `MAX_SEARCH_RESULTS`.  The query-string construction
(`f"{query} health medical..."`) happens inside the HTTP layer folded into
the `ddg` oracle; no domain filtering is applied anywhere on this path. -/
def search_health_info (env : Env) (_query : Str) : List SearchResult :=
  if !env.sessionExists || !env.webSearchEnabled then []
  else
    match env.ddg with
    | none => []
    | some d =>
      let r1 :=
        if (d.abstract.getD []) = [] then []
        else [{ title := d.heading.getD ("Health Information".data),
                content := d.abstract.getD [],
                source := d.abstractURL.getD ("DuckDuckGo".data) : SearchResult }]
      (r1 ++ (d.relatedTopics.take 3).filterMap topicResult).take env.maxSearchResults

/-! ## Response formatting (AIModelManager.format_response) -/

/-- The response dictionary; the keys `format_response` always emits.  The
`language` field is `Option Str` because the top-level error path passes the
raw language variable through, which can still be the caller's hint — or
Python `None`. -/
structure Response where
  answer : Str
  response : Str
  language : Option Str
  source : Str
  is_emergency : Bool
  is_error : Bool
  confidence : Option ℚ
  model : Str
  translation_model : Str
  timestamp : Str

/-- `AIModelManager.format_response`: both `answer` and `response` carry the
same text; `source or "Medical AI"` falls back on an empty source; the
confidence is passed through (`float(confidence)` when not `None`). -/
def format_response (response_text : Str) (language : Option Str) (source : Str)
    (is_emergency is_error : Bool) (confidence : Option ℚ) (now : Str) : Response :=
  { answer := response_text,
    response := response_text,
    language := language,
    source := if source = [] then "Medical AI".data else source,
    is_emergency := is_emergency,
    is_error := is_error,
    confidence := confidence,
    model := "BioBERT".data,
    translation_model := "Khaya AI".data,
    timestamp := now }

/-! ## The orchestrator (AIModelManager.generate_medical_response) -/

/-- The language-resolution step: `if language == "auto": language =
self.detect_language(question)` followed by `if language not in ["en", "ak"]:
language = "en"`.  The hint is `Option Str` because callers can pass
`None`. -/
def resolve_language (hint : Option Str) (question : Str) : Str :=
  match (if hint = some ("auto".data) then some (detect_language question) else hint) with
  | some t => if t = "en".data ∨ t = "ak".data then t else "en".data
  | none => "en".data

/-- `Python a or b` on strings: keep `a` when it is a non-empty string. -/
def orElseStr : Option Str → Str → Str
  | some t, b => if t = [] then b else t
  | none, b => b

/-- The generic final-fallback message of `generate_medical_response`. -/
def generic_fallback_msg (lang : Str) : Str :=
  if lang = "ak".data then
    "Mepa wo kyɛw, m'ani nnye ho. Yɛsrɛ wo san aye akyiri bi anaa kɔbisa oduruyɛfoɔ.".data
  else
    "I'm sorry, I couldn't find a specific answer to your question. Please try rephrasing or consult a healthcare professional for medical advice.".data

/-- The critical-error message of the top-level `except` handler; it reads
the `language` variable as it stands when the exception is raised, which is
still the raw hint when initialization raised. -/
def critical_error_msg (langVar : Option Str) : Str :=
  if langVar = some ("ak".data) then
    "Mepa wo kyɛw, ɛsɔreɛ bi baa mu. Yɛsrɛ wo san aye akyiri bi.".data
  else
    "I'm sorry, I encountered an unexpected error. Please try again later.".data

/-- The model-backed stage (the first inner `try` of
`generate_medical_response`): retrieve a context passage, call
`answer_question`, and terminate with its answer when the reported confidence
is greater than 0; `none` means the stage fell through.  An exception out of
`answer_question` — in particular its unconditional re-initialize raise,
driven by the same missing import as `Env.medqaInitRaises` — lands in the
stage's `except` (ai_models.py:441-442), which logs and falls through. -/
def qaStage (env : Env) (question language : Str) : Option Response :=
  match answer_question env.medqaInitRaises env.inference question
      (retrieve_best_context question language) language with
  | Except.error _ => none
  | Except.ok qa =>
    if 0 < qa.confidence.getD 0 then
      some (format_response
        (orElseStr qa.answer (orElseStr qa.response ("No answer provided".data)))
        (some language) (qa.source.getD ("BioBERT".data)) false false
        (some (qa.confidence.getD 0)) env.now)
    else none

/-- Stages 3–6 of the orchestrator, entered when no emergency matched:
model-backed answer, knowledge-base direct, web search (when enabled), then
the generic fallback. -/
def afterEmergency (env : Env) (question language : Str) : Response :=
  match qaStage env question language with
  | some r => r
  | none =>
    match retrieve_best_context question language with
    | some t =>
      format_response t (some language) ("Local Knowledge Base".data) false false
        (some ((7 : ℚ)/10)) env.now
    | none =>
      if env.webSearchEnabled then
        match search_health_info env question with
        | r :: _ =>
          format_response r.content (some language) r.source false false
            (some ((3 : ℚ)/5)) env.now
        | [] =>
          format_response (generic_fallback_msg language) (some language) ("System".data)
            false false (some ((1 : ℚ)/10)) env.now
      else
        format_response (generic_fallback_msg language) (some language) ("System".data)
          false false (some ((1 : ℚ)/10)) env.now

/-- `AIModelManager.generate_medical_response`.  `self.initialize()` swallows
its own exceptions, so the only raise that reaches the top-level `except` in
this model is the unconditional `await self.medical_qa.initialize()`; the
handler formats the critical-error response with confidence 0.0,
`source="System"`, `is_error=True` and the language variable as it stood
(still the raw hint).  In the shipped program that call raises `NameError`
on every request (see `Env.medqaInitRaises`), so every real execution takes
the error branch; the `else` branch — language resolution, emergency triage
(short-circuiting with confidence 1.0), then the fallback chain — is the
repaired-import counterfactual. -/
def generate_medical_response (env : Env) (question : Str) (hint : Option Str) : Response :=
  if env.medqaInitRaises then
    format_response (critical_error_msg hint) hint ("System".data) false true
      (some 0) env.now
  else
    match check_emergency_condition question (resolve_language hint question) with
    | some er =>
      format_response er (some (resolve_language hint question)) ("Emergency Check".data)
        true false (some 1) env.now
    | none => afterEmergency env question (resolve_language hint question)

/-! ## The HTTP route (ask_health_question in
backend/app/api/routes/health.py), up to the `generate_medical_response`
call: empty-question validation happens first, then the AI-manager readiness
checks, and only then does the pipeline run. -/

def ask_health_question (env : Env) (aiReady : Bool) (question : Str)
    (language : Option Str) : Except Nat Response :=
  if question = [] ∨ stripStr question = [] then Except.error 400
  else if !aiReady then Except.error 503
  else Except.ok (generate_medical_response env question language)

/-! ## Helper lemmas shared by several claim proofs -/

/-- In the shipped program `answer_question` raises on every call. -/
lemma answer_question_raises (inf : Option Inference) (question : Str)
    (context : Option Str) (language : Str) :
    answer_question true inf question context language = Except.error () := by
  unfold answer_question
  rw [if_pos rfl]

/-- In the repaired-import counterfactual, a raising model round yields the
no-confidence dictionary. -/
lemma answer_question_false_none (question : Str) (context : Option Str) (language : Str) :
    answer_question false none question context language =
      Except.ok { answer := none, response := none, source := none, confidence := none } := by
  unfold answer_question
  rw [if_neg (by simp)]
  split
  · rfl
  · rfl

lemma mqa_fallbacks_ne_nil (lang : Str) : mqa_fallbacks lang ≠ [] := by
  unfold mqa_fallbacks
  split
  · decide
  · decide

lemma resolve_language_mem (hint : Option Str) (q : Str) :
    resolve_language hint q = "en".data ∨ resolve_language hint q = "ak".data := by
  unfold resolve_language
  cases hx : (if hint = some ("auto".data) then some (detect_language q) else hint) with
  | none => left; rfl
  | some t =>
    show (if t = "en".data ∨ t = "ak".data then t else "en".data) = "en".data ∨
      (if t = "en".data ∨ t = "ak".data then t else "en".data) = "ak".data
    by_cases ht : t = "en".data ∨ t = "ak".data
    · rw [if_pos ht]; exact ht
    · rw [if_neg ht]; left; rfl

lemma qaStage_some_eq (env : Env) (q l : Str) (r : Response)
    (h : qaStage env q l = some r) :
    ∃ text src conf, r = format_response text (some l) src false false conf env.now := by
  unfold qaStage at h
  split at h
  · exact absurd h (by simp)
  · split at h
    · exact ⟨_, _, _, (Option.some.inj h).symm⟩
    · exact absurd h (by simp)

/-- On a real request the orchestrator's top-level handler fires: the result
is the critical-error envelope. -/
lemma real_request_error (env : Env) (q : Str) (hint : Option Str)
    (h : env.medqaInitRaises = true) :
    generate_medical_response env q hint =
      format_response (critical_error_msg hint) hint ("System".data) false true
        (some 0) env.now := by
  unfold generate_medical_response
  rw [if_pos h]

lemma afterEmergency_shape (env : Env) (q l : Str) :
    ∃ text lang src conf,
      afterEmergency env q l = format_response text lang src false false conf env.now := by
  unfold afterEmergency
  cases hq : qaStage env q l with
  | some r =>
    obtain ⟨text, src, conf, hr⟩ := qaStage_some_eq env q l r hq
    exact ⟨text, some l, src, conf, hr⟩
  | none =>
    cases hr : retrieve_best_context q l with
    | some t => exact ⟨_, _, _, _, rfl⟩
    | none =>
      cases hw : env.webSearchEnabled with
      | true =>
        rw [if_pos rfl]
        cases hs : search_health_info env q with
        | nil => exact ⟨_, _, _, _, rfl⟩
        | cons r rs => exact ⟨_, _, _, _, rfl⟩
      | false =>
        rw [if_neg (by simp)]
        exact ⟨_, _, _, _, rfl⟩

lemma afterEmergency_is_error (env : Env) (q l : Str) :
    (afterEmergency env q l).is_error = false := by
  obtain ⟨text, lang, src, conf, h⟩ := afterEmergency_shape env q l
  rw [h]; rfl

lemma bestLoop_zero (q lang : Str) :
    ∀ kb : List (Str × List (Str × Str)), (∀ e ∈ kb, scoreFor q e.1 = 0) →
      bestLoop q lang kb (0, none) = (0, none) := by
  intro kb
  induction kb with
  | nil => intro _; rfl
  | cons e rest ih =>
    intro h
    obtain ⟨key, entry⟩ := e
    have h0 : scoreFor q key = 0 := h (key, entry) (List.mem_cons_self _ _)
    have hn : ¬ ((0, (none : Option Str)).1 < scoreFor q key) := by simp [h0]
    show (if (0, (none : Option Str)).1 < scoreFor q key then
        bestLoop q lang rest (scoreFor q key, some (textFor entry lang))
      else bestLoop q lang rest (0, none)) = (0, none)
    rw [if_neg hn]
    exact ih (fun e he => h e (List.mem_cons_of_mem _ he))

lemma retrieve_zero (q lang : Str)
    (h : ∀ e ∈ medical_knowledge, scoreFor q e.1 = 0) :
    retrieve_best_context q lang = none := by
  unfold retrieve_best_context
  rw [bestLoop_zero q lang medical_knowledge h]

/-! ## Claim C6 — the language detector -/

/-- Claim C6: `detect_language` lower-cases the text, counts how many
distinct words of the fixed Akan marker list occur in it, and returns `"ak"`
exactly when that count reaches 2 and `"en"` otherwise; it always returns one
of the two codes; and the two reference examples hold. -/
theorem detect_language_spec :
    (∀ t, detect_language t =
      if 2 ≤ akanMarkerCount t then "ak".data else "en".data) ∧
    (∀ t, detect_language t = "ak".data ∨ detect_language t = "en".data) ∧
    detect_language ("wo ho yare wo mu".data) = "ak".data ∧
    detect_language ("I have a headache".data) = "en".data := by
  refine ⟨?_, detect_language_cases, by decide, by decide⟩
  intro t
  have hnd : akan_words.Nodup := by decide
  unfold detect_language akanMarkerCount
  rw [List.Nodup.dedup (List.Nodup.filter _ hnd)]

/-! ## Claim C7 — language resolution in the orchestrator -/

/-- Claim C7: with the hint `"auto"` (the orchestrator's default, hence also
the "absent" case) the detector resolves the language; any other hint is used
verbatim except that a hint outside `{"en","ak"}` — including Python `None`
— is coerced to `"en"`; the resolved language is always `"en"` or `"ak"`. -/
theorem resolve_language_spec :
    (∀ q, resolve_language (some ("auto".data)) q = detect_language q) ∧
    (∀ (q : Str) (hint : Option Str), hint ≠ some ("auto".data) →
      resolve_language hint q =
        (match hint with
         | some t => if t = "en".data ∨ t = "ak".data then t else "en".data
         | none => "en".data)) ∧
    (∀ (q : Str) (hint : Option Str),
      resolve_language hint q = "en".data ∨ resolve_language hint q = "ak".data) := by
  refine ⟨?_, ?_, fun q hint => resolve_language_mem hint q⟩
  · intro q
    unfold resolve_language
    rw [if_pos rfl]
    rcases detect_language_cases q with h | h <;> simp [h]
  · intro q hint hne
    unfold resolve_language
    rw [if_neg hne]

/-- Witness for C7: a hint outside the closed set is coerced to `"en"`. -/
theorem resolve_language_spec_witness :
    resolve_language (some ("fr".data)) ("hello".data) = "en".data := by
  have h := resolve_language_spec.2.1 ("hello".data) (some ("fr".data)) (by decide)
  rw [h]
  decide

/-! ## Claim C9 — empty questions are rejected at the route -/

/-- Claim C9: an empty or whitespace-only question is rejected with HTTP 400
by `ask_health_question` before the pipeline (language detection, triage) can
run: the outcome is the same for every oracle environment and no response
object is produced. -/
theorem empty_question_rejected (env : Env) (aiReady : Bool) (q : Str)
    (lang : Option Str) (h : stripStr q = []) :
    ask_health_question env aiReady q lang = Except.error 400 := by
  unfold ask_health_question
  rw [if_pos (Or.inr h)]

/-- Witness for C9: the whitespace-only question `"   "` is rejected. -/
theorem empty_question_rejected_witness :
    ask_health_question ⟨false, none, true, 5, true, none, "t".data⟩ true
      ("   ".data) none = Except.error 400 :=
  empty_question_rejected _ _ _ _ (by decide)

/-! ## Claim C2 — the emergency short-circuit for "chest pain" -/

lemma check_emergency_chest_pain (t l : Str)
    (h : isSubstrOf ("chest pain".data) (lowerStr t) = true) :
    ∃ r, check_emergency_condition t l = some r := by
  unfold check_emergency_condition emergency_conditions
  rw [List.find?_cons_of_pos _ (by simp [h])]
  exact ⟨_, rfl⟩

/-- In the repaired-import counterfactual branch (`medqaInitRaises = false`,
dead code in the shipped program) a question containing `"chest pain"` after
lower-casing terminates at the emergency stage with confidence 1.0,
`is_emergency = true` and `source = "Emergency Check"`, regardless of any
knowledge-base or model outcome — evidence that the emergency short-circuit
is the code's intent. -/
lemma emergency_chest_pain_counterfactual (env : Env) (q : Str) (hint : Option Str)
    (hinit : env.medqaInitRaises = false)
    (h : isSubstrOf ("chest pain".data) (lowerStr q) = true) :
    (generate_medical_response env q hint).confidence = some 1 ∧
    (generate_medical_response env q hint).is_emergency = true ∧
    (generate_medical_response env q hint).source = "Emergency Check".data := by
  obtain ⟨r, hr⟩ := check_emergency_chest_pain q (resolve_language hint q) h
  have hg : generate_medical_response env q hint =
      format_response r (some (resolve_language hint q)) ("Emergency Check".data)
        true false (some 1) env.now := by
    unfold generate_medical_response
    rw [if_neg (by simp [hinit]), hr]
  rw [hg]
  refine ⟨rfl, rfl, ?_⟩
  show (if ("Emergency Check".data : Str) = [] then "Medical AI".data
    else "Emergency Check".data) = "Emergency Check".data
  rw [if_neg (by decide)]

/-- Claim C2 (code bug, evaluated at the failing input `"chest pain"`):
the emergency-rule table does match the question (last conjunct), and the
spec and the code's own emergency machinery intend the Emergency Check
termination with confidence 1.0 — but in the shipped program the
unconditional QA initialization raises `NameError` on every request
(`AutoTokenizer` is never imported in medical_qa.py), so the orchestrator
returns the System error envelope with `is_emergency = false`,
`is_error = true` and confidence 0.0 instead.  The emergency stage is dead
code by a slip, not by design. -/
theorem emergency_dead_code_eval :
    isSubstrOf ("chest pain".data) (lowerStr ("chest pain".data)) = true ∧
    (generate_medical_response ⟨true, none, true, 5, true, none, "t".data⟩
        ("chest pain".data) (some ("en".data))).is_emergency = false ∧
    (generate_medical_response ⟨true, none, true, 5, true, none, "t".data⟩
        ("chest pain".data) (some ("en".data))).is_error = true ∧
    (generate_medical_response ⟨true, none, true, 5, true, none, "t".data⟩
        ("chest pain".data) (some ("en".data))).confidence = some 0 ∧
    check_emergency_condition ("chest pain".data) ("en".data) ≠ none :=
  ⟨by decide, rfl, rfl, rfl, by decide⟩

/-! ## Claim C3 — top-level exception conversion -/

/-- Counterexample to C3 as stated: when the unconditional
`medical_qa.initialize()` raises, the exception occurs before language
resolution, so the handler formats the apology from the still-raw hint.  With
hint `"auto"` and an Akan question (the detector would say `"ak"`), the
result carries the English apology and the literal string `"auto"` in its
language field — not "the requested/detected language". -/
theorem error_path_language_counterexample :
    detect_language ("wo ho yare wo mu".data) = "ak".data ∧
    (generate_medical_response ⟨true, none, false, 5, false, none, "t".data⟩
        ("wo ho yare wo mu".data) (some ("auto".data))).language =
      some ("auto".data) ∧
    (generate_medical_response ⟨true, none, false, 5, false, none, "t".data⟩
        ("wo ho yare wo mu".data) (some ("auto".data))).answer =
      "I'm sorry, I encountered an unexpected error. Please try again later.".data :=
  ⟨by decide, rfl, rfl⟩

/-- Claim C3 (amended): the orchestrator is a total function (it never
propagates an exception); its result is an error response exactly when the
initialization call raises — the only exception source that reaches the
top-level handler, every other stage being internally guarded — and in that
case the result is the fixed bilingual apology selected from the language
variable as it stood at the raise (the raw hint), with confidence 0.0,
`source = "System"` and `is_error = true`. -/
theorem error_path_conversion (env : Env) (q : Str) (hint : Option Str) :
    ((generate_medical_response env q hint).is_error = true ↔
      env.medqaInitRaises = true) ∧
    (env.medqaInitRaises = true →
      generate_medical_response env q hint =
        format_response (critical_error_msg hint) hint ("System".data) false true
          (some 0) env.now) := by
  cases hb : env.medqaInitRaises with
  | true =>
    have hg : generate_medical_response env q hint =
        format_response (critical_error_msg hint) hint ("System".data) false true
          (some 0) env.now := by
      unfold generate_medical_response
      rw [if_pos hb]
    exact ⟨by rw [hg]; exact ⟨fun _ => rfl, fun _ => rfl⟩, fun _ => hg⟩
  | false =>
    have hg : (generate_medical_response env q hint).is_error = false := by
      unfold generate_medical_response
      rw [if_neg (by simp [hb])]
      cases hc : check_emergency_condition q (resolve_language hint q) with
      | some er => rfl
      | none => exact afterEmergency_is_error env q _
    refine ⟨by rw [hg], ?_⟩
    intro h
    exact absurd h (by simp)

/-- Witness for C3 (amended) at a raising environment. -/
theorem error_path_conversion_witness :
    generate_medical_response ⟨true, none, true, 5, true, none, "now".data⟩
        ("what is malaria".data) (some ("en".data)) =
      format_response (critical_error_msg (some ("en".data))) (some ("en".data))
        ("System".data) false true (some 0) ("now".data) :=
  (error_path_conversion ⟨true, none, true, 5, true, none, "now".data⟩
    ("what is malaria".data) (some ("en".data))).2 rfl

/-! ## Claim C5 — the generic fallback -/

/-- In the repaired-import counterfactual branch, a question that matches no
emergency rule, scores 0 on every knowledge-base entry, gets no usable model
answer, and has web search disabled produces the generic apology with
confidence 0.1, `source = "System"`, `is_error = false`. -/
lemma generic_fallback_counterfactual (env : Env) (q : Str) (hint : Option Str)
    (hinit : env.medqaInitRaises = false)
    (hem : check_emergency_condition q (resolve_language hint q) = none)
    (hK : ∀ e ∈ medical_knowledge, scoreFor q e.1 = 0)
    (hQ : env.inference = none)
    (hW : env.webSearchEnabled = false) :
    generate_medical_response env q hint =
      format_response (generic_fallback_msg (resolve_language hint q))
        (some (resolve_language hint q)) ("System".data) false false
        (some ((1 : ℚ)/10)) env.now := by
  have hret : retrieve_best_context q (resolve_language hint q) = none :=
    retrieve_zero _ _ hK
  have hqa : qaStage env q (resolve_language hint q) = none := by
    unfold qaStage
    rw [hinit, hQ, answer_question_false_none]
    simp
  unfold generate_medical_response
  rw [if_neg (by simp [hinit]), hem]
  show afterEmergency env q (resolve_language hint q) = _
  unfold afterEmergency
  rw [hqa, hret, if_neg (by simp [hW])]

/-- Counterexample to C5 as stated: the question `"xyzzy"` satisfies all
three of the claim's hypotheses (every knowledge-base entry scores 0, the
model yields no usable answer, web search is disabled), yet the shipped
program — whose unconditional QA initialization raises `NameError` on every
request — returns the System *error* envelope with confidence 0.0 and
`is_error = true`, not the generic apology with confidence 0.1 and
`is_error = false`. -/
theorem generic_fallback_real_counterexample :
    (medical_knowledge.all (fun e => scoreFor ("xyzzy".data) e.1 == 0)) = true ∧
    (⟨true, none, false, 5, false, none, "t".data⟩ : Env).webSearchEnabled = false ∧
    (generate_medical_response ⟨true, none, false, 5, false, none, "t".data⟩
        ("xyzzy".data) (some ("en".data))).is_error = true ∧
    (generate_medical_response ⟨true, none, false, 5, false, none, "t".data⟩
        ("xyzzy".data) (some ("en".data))).confidence = some 0 ∧
    (generate_medical_response ⟨true, none, false, 5, false, none, "t".data⟩
        ("xyzzy".data) (some ("en".data))).answer =
      "I'm sorry, I encountered an unexpected error. Please try again later.".data :=
  ⟨by decide, rfl, rfl, rfl, rfl⟩

/-- Claim C5 (amended): under the claim's hypotheses (all knowledge-base
scores 0, no usable model answer, web search disabled) the shipped program
returns the System *error* envelope with confidence 0.0 and `is_error = true`
— on every real request the unconditional QA initialization raises, so the
generic-fallback stage is dead code; the claimed apology with confidence 0.1
and `is_error = false` is produced only in the repaired-initialization
counterfactual, and then only if additionally no emergency rule matches the
question. -/
theorem generic_fallback_behavior (env : Env) (q : Str) (hint : Option Str)
    (hK : ∀ e ∈ medical_knowledge, scoreFor q e.1 = 0)
    (hQ : env.inference = none)
    (hW : env.webSearchEnabled = false) :
    (env.medqaInitRaises = true →
      generate_medical_response env q hint =
        format_response (critical_error_msg hint) hint ("System".data) false true
          (some 0) env.now) ∧
    (env.medqaInitRaises = false →
      check_emergency_condition q (resolve_language hint q) = none →
      generate_medical_response env q hint =
        format_response (generic_fallback_msg (resolve_language hint q))
          (some (resolve_language hint q)) ("System".data) false false
          (some ((1 : ℚ)/10)) env.now) :=
  ⟨fun h => real_request_error env q hint h,
   fun hinit hem => generic_fallback_counterfactual env q hint hinit hem hK hQ hW⟩

/-- Witness for C5 (amended): the real (raising) branch at the unmatched
question `"xyzzy"`. -/
theorem generic_fallback_behavior_witness :
    generate_medical_response ⟨true, none, false, 5, false, none, "t".data⟩
        ("xyzzy".data) (some ("en".data)) =
      format_response (critical_error_msg (some ("en".data))) (some ("en".data))
        ("System".data) false true (some 0) ("t".data) :=
  (generic_fallback_behavior ⟨true, none, false, 5, false, none, "t".data⟩
    ("xyzzy".data) (some ("en".data)) (by decide) rfl rfl).1 rfl


/-! ## Claim C4 — the confidence floor of the model-backed answerer -/

/-- In the repaired-import counterfactual branch, a below-floor model round
with positive max-start probability is accepted by the orchestrator as a
`"BioBERT"` answer carrying the static fallback text. -/
lemma below_floor_accept (env : Env) (q : Str) (hint : Option Str) (i : Inference)
    (hinit : env.medqaInitRaises = false)
    (hem : check_emergency_condition q (resolve_language hint q) = none)
    (hi : env.inference = some i)
    (hctx : retrieve_best_context q (resolve_language hint q) ≠ some q)
    (hpos : 0 < i.maxStartProb)
    (hfloor : ¬ ((3 : ℚ)/10 < i.spanConf)) :
    generate_medical_response env q hint =
      format_response (mqa_fallbacks (resolve_language hint q))
        (some (resolve_language hint q)) ("BioBERT".data) false false
        (some i.maxStartProb) env.now := by
  have h0 : mqa_answer0 i (resolve_language hint q) =
      mqa_fallbacks (resolve_language hint q) := by
    unfold mqa_answer0
    rw [if_neg hfloor]
  have h1 : mqa_answer1 i (resolve_language hint q) =
      mqa_fallbacks (resolve_language hint q) := by
    unfold mqa_answer1
    rw [h0, ite_self]
  have hdict : answer_question env.medqaInitRaises env.inference q
      (retrieve_best_context q (resolve_language hint q)) (resolve_language hint q) =
      Except.ok { answer := some (mqa_fallbacks (resolve_language hint q)), response := none,
                  source := none, confidence := some i.maxStartProb } := by
    rw [hinit, hi]
    unfold answer_question
    rw [if_neg (by simp), if_neg hctx, ← h1]
  have ho : orElseStr (some (mqa_fallbacks (resolve_language hint q)))
      (orElseStr none ("No answer provided".data)) =
      mqa_fallbacks (resolve_language hint q) := by
    show (if mqa_fallbacks (resolve_language hint q) = []
      then orElseStr none ("No answer provided".data)
      else mqa_fallbacks (resolve_language hint q)) =
      mqa_fallbacks (resolve_language hint q)
    rw [if_neg (mqa_fallbacks_ne_nil _)]
  have hq : qaStage env q (resolve_language hint q) =
      some (format_response (mqa_fallbacks (resolve_language hint q))
        (some (resolve_language hint q)) ("BioBERT".data) false false
        (some i.maxStartProb) env.now) := by
    unfold qaStage
    rw [hdict]
    simp only [Option.getD_some, Option.getD_none]
    rw [if_pos hpos, ho]
  unfold generate_medical_response
  rw [if_neg (by simp [hinit]), hem]
  show afterEmergency env q (resolve_language hint q) = _
  unfold afterEmergency
  rw [hq]

/-- In the repaired-import counterfactual branch, a model failure (no usable
dictionary) makes the QA stage fall through to the knowledge-base stage. -/
lemma qa_failure_falls_through (env : Env) (q : Str) (hint : Option Str)
    (hinit : env.medqaInitRaises = false)
    (hem : check_emergency_condition q (resolve_language hint q) = none)
    (hN : env.inference = none) (t : Str)
    (ht : retrieve_best_context q (resolve_language hint q) = some t) :
    generate_medical_response env q hint =
      format_response t (some (resolve_language hint q))
        ("Local Knowledge Base".data) false false (some ((7 : ℚ)/10)) env.now := by
  have hqa : qaStage env q (resolve_language hint q) = none := by
    unfold qaStage
    rw [hinit, hN, answer_question_false_none]
    simp
  unfold generate_medical_response
  rw [if_neg (by simp [hinit]), hem]
  show afterEmergency env q (resolve_language hint q) = _
  unfold afterEmergency
  rw [hqa, ht]

/-- Counterexample to C4 as stated: in the shipped program no confidence
floor is ever applied and no failure ever "triggers the next fallback stage".
`answer_question` raises `NameError` on every call (its unguarded
re-initialize, medical_qa.py:162-163, runs with `_initialized` permanently
`False` and `initialize` dies on the never-imported `AutoTokenizer`), and the
orchestrator hits the same raise at its own unconditional initialization
before the QA stage — so even a round whose span confidence 0.2 sits below
the 0.3 floor yields neither an accepted-as-is result nor a knowledge-base
fallback, but the System error envelope with confidence 0.0. -/
theorem qa_floor_real_counterexample :
    ((1 : ℚ)/5 < 3/10) ∧
    answer_question true (some ⟨(1 : ℚ)/5, "aspirin".data, (7 : ℚ)/10⟩)
        ("tell me about malaria".data)
        (retrieve_best_context ("tell me about malaria".data) ("en".data))
        ("en".data) = Except.error () ∧
    (generate_medical_response
        ⟨true, some ⟨(1 : ℚ)/5, "aspirin".data, (7 : ℚ)/10⟩, false, 5, false, none, "t".data⟩
        ("tell me about malaria".data) (some ("en".data))).source = "System".data ∧
    (generate_medical_response
        ⟨true, some ⟨(1 : ℚ)/5, "aspirin".data, (7 : ℚ)/10⟩, false, 5, false, none, "t".data⟩
        ("tell me about malaria".data) (some ("en".data))).is_error = true ∧
    (generate_medical_response
        ⟨true, some ⟨(1 : ℚ)/5, "aspirin".data, (7 : ℚ)/10⟩, false, 5, false, none, "t".data⟩
        ("tell me about malaria".data) (some ("en".data))).confidence = some 0 :=
  ⟨by norm_num, rfl, rfl, rfl, rfl⟩

/-- Claim C4 (amended): in the shipped program the model-backed answerer
never returns — `answer_question` raises on every call and the orchestrator
raises at its own unconditional initialization before the QA stage, so every
request ends in the System error envelope (confidence 0.0): no floor is
applied, and no fallback stage is triggered.  In the repaired-initialization
counterfactual, the 0.3 threshold gates only the answer *text* (decoded span
vs static fallback) while the reported confidence is the max start-softmax
probability; the orchestrator accepts any reported confidence > 0 — a
below-floor round is accepted as a `"BioBERT"` answer carrying the fallback
text — and a raising model round yields a no-confidence dictionary that
falls through to the knowledge-base stage and is never raised to the
caller. -/
theorem qa_floor_behavior (env : Env) (q : Str) (hint : Option Str) :
    (env.medqaInitRaises = true →
      answer_question env.medqaInitRaises env.inference q
          (retrieve_best_context q (resolve_language hint q))
          (resolve_language hint q) = Except.error () ∧
      generate_medical_response env q hint =
        format_response (critical_error_msg hint) hint ("System".data) false true
          (some 0) env.now) ∧
    (env.medqaInitRaises = false →
      check_emergency_condition q (resolve_language hint q) = none →
      (∀ i : Inference, env.inference = some i →
        retrieve_best_context q (resolve_language hint q) ≠ some q →
        0 < i.maxStartProb → ¬ ((3 : ℚ)/10 < i.spanConf) →
        generate_medical_response env q hint =
          format_response (mqa_fallbacks (resolve_language hint q))
            (some (resolve_language hint q)) ("BioBERT".data) false false
            (some i.maxStartProb) env.now) ∧
      (env.inference = none →
        ∀ t, retrieve_best_context q (resolve_language hint q) = some t →
          generate_medical_response env q hint =
            format_response t (some (resolve_language hint q))
              ("Local Knowledge Base".data) false false
              (some ((7 : ℚ)/10)) env.now)) :=
  ⟨fun h =>
    ⟨by rw [h]; exact answer_question_raises _ _ _ _, real_request_error env q hint h⟩,
   fun hinit hem =>
    ⟨fun i hi hctx hpos hfloor =>
      below_floor_accept env q hint i hinit hem hi hctx hpos hfloor,
     fun hN t ht => qa_failure_falls_through env q hint hinit hem hN t ht⟩⟩

/-- Witness for C4 (amended): the real (raising) branch at a concrete
question and environment. -/
theorem qa_floor_behavior_witness :
    generate_medical_response ⟨true, none, true, 5, true, none, "t".data⟩
        ("fever".data) (some ("en".data)) =
      format_response (critical_error_msg (some ("en".data))) (some ("en".data))
        ("System".data) false true (some 0) ("t".data) :=
  ((qa_floor_behavior ⟨true, none, true, 5, true, none, "t".data⟩
      ("fever".data) (some ("en".data))).1 rfl).2

/-! ## Claim C8 — the web-search fallback stage -/

/-- In the repaired-import counterfactual branch, when the web-search stage
is reached with a non-empty result list, the orchestrator terminates with the
first result's content, confidence 0.6 and the result's cited source — with
no domain filtering anywhere on the path. -/
lemma web_stage_accept (env : Env) (q : Str) (hint : Option Str)
    (r : SearchResult) (rs : List SearchResult)
    (hinit : env.medqaInitRaises = false)
    (hem : check_emergency_condition q (resolve_language hint q) = none)
    (hQ : env.inference = none)
    (hK : retrieve_best_context q (resolve_language hint q) = none)
    (hW : env.webSearchEnabled = true)
    (hs : search_health_info env q = r :: rs) :
    generate_medical_response env q hint =
      format_response r.content (some (resolve_language hint q)) r.source false false
        (some ((3 : ℚ)/5)) env.now := by
  have hqa : qaStage env q (resolve_language hint q) = none := by
    unfold qaStage
    rw [hinit, hQ, answer_question_false_none]
    simp
  unfold generate_medical_response
  rw [if_neg (by simp [hinit]), hem]
  show afterEmergency env q (resolve_language hint q) = _
  unfold afterEmergency
  rw [hqa, hK, if_pos hW, hs]

/-- Counterexample to C8 as stated: on a real request the web-search stage
never runs at all — the unconditional QA initialization raises `NameError`
first.  With web search enabled, a result available (the search function,
which applies no domain filtering, would return the quack payload — its
source matches no trusted domain), and no stage able to produce anything, the
orchestrator still returns the System error envelope with confidence 0.0,
never the claimed allow-listed result with confidence 0.6. -/
theorem web_search_real_counterexample :
    (⟨true, none, true, 5, true,
        some ⟨some ("Miracle cure claims".data), some ("Quack".data),
              some ("https://quack.example.com/cure".data), []⟩, "t".data⟩ : Env).webSearchEnabled
      = true ∧
    search_health_info
        ⟨true, none, true, 5, true,
          some ⟨some ("Miracle cure claims".data), some ("Quack".data),
                some ("https://quack.example.com/cure".data), []⟩, "t".data⟩
        ("xyzzy".data) =
      [⟨"Quack".data, "Miracle cure claims".data, "https://quack.example.com/cure".data⟩] ∧
    (TRUSTED_MEDICAL_DOMAINS.all
      (fun d => !(isSubstrOf d ("https://quack.example.com/cure".data)))) = true ∧
    (generate_medical_response
        ⟨true, none, true, 5, true,
          some ⟨some ("Miracle cure claims".data), some ("Quack".data),
                some ("https://quack.example.com/cure".data), []⟩, "t".data⟩
        ("xyzzy".data) (some ("en".data))).source = "System".data ∧
    (generate_medical_response
        ⟨true, none, true, 5, true,
          some ⟨some ("Miracle cure claims".data), some ("Quack".data),
                some ("https://quack.example.com/cure".data), []⟩, "t".data⟩
        ("xyzzy".data) (some ("en".data))).is_error = true ∧
    (generate_medical_response
        ⟨true, none, true, 5, true,
          some ⟨some ("Miracle cure claims".data), some ("Quack".data),
                some ("https://quack.example.com/cure".data), []⟩, "t".data⟩
        ("xyzzy".data) (some ("en".data))).confidence = some 0 :=
  ⟨rfl, rfl, by decide, rfl, rfl, rfl⟩

/-- Claim C8 (amended): in the shipped program the web-search stage is
unreachable — every request dies in the System error envelope at the
unconditional QA initialization (confidence 0.0), regardless of the search
configuration or available results.  In the repaired-initialization
counterfactual, the stage that would run (`search_health_info`, the only
search the orchestrator calls) applies no domain allow-list:
`TRUSTED_MEDICAL_DOMAINS` is referenced only by `_search_web_medical`, which
never returns a result (its `search_web` call names an undefined function;
the `NameError` is caught inside it and it returns `None`) — and any first
result is returned verbatim with confidence 0.6 and `source` = its cited
URL/name. -/
theorem web_search_behavior (env : Env) (q : Str) (hint : Option Str)
    (r : SearchResult) (rs : List SearchResult)
    (hQ : env.inference = none)
    (hK : retrieve_best_context q (resolve_language hint q) = none)
    (hW : env.webSearchEnabled = true)
    (hs : search_health_info env q = r :: rs) :
    (env.medqaInitRaises = true →
      generate_medical_response env q hint =
        format_response (critical_error_msg hint) hint ("System".data) false true
          (some 0) env.now) ∧
    (env.medqaInitRaises = false →
      check_emergency_condition q (resolve_language hint q) = none →
      generate_medical_response env q hint =
        format_response r.content (some (resolve_language hint q)) r.source false false
          (some ((3 : ℚ)/5)) env.now) :=
  ⟨fun h => real_request_error env q hint h,
   fun hinit hem => web_stage_accept env q hint r rs hinit hem hQ hK hW hs⟩

/-- Witness for C8 (amended): the real (raising) branch at the quack
environment. -/
theorem web_search_behavior_witness :
    generate_medical_response
        ⟨true, none, true, 5, true,
          some ⟨some ("Miracle cure claims".data), some ("Quack".data),
                some ("https://quack.example.com/cure".data), []⟩, "t".data⟩
        ("xyzzy".data) (some ("en".data)) =
      format_response (critical_error_msg (some ("en".data))) (some ("en".data))
        ("System".data) false true (some 0) ("t".data) :=
  (web_search_behavior
      ⟨true, none, true, 5, true,
        some ⟨some ("Miracle cure claims".data), some ("Quack".data),
              some ("https://quack.example.com/cure".data), []⟩, "t".data⟩
      ("xyzzy".data) (some ("en".data))
      ⟨"Quack".data, "Miracle cure claims".data, "https://quack.example.com/cure".data⟩ []
      rfl (by decide) rfl rfl).1 rfl

/-! ## Claim C10 — every result is a format_response envelope -/

/-- Claim C10: every result the orchestrator produces — on the emergency,
model, knowledge-base, web-search, generic-fallback and error paths alike —
is built by `format_response`, and therefore carries both an `answer` and a
`response` field holding the identical text, together with the language,
source, emergency/error flags, the request timestamp, and a confidence that
is `none` or a number (by the type of the field). -/
theorem response_envelope (env : Env) (q : Str) (hint : Option Str) :
    (∃ text lang src em er conf,
      generate_medical_response env q hint =
        format_response text lang src em er conf env.now) ∧
    (generate_medical_response env q hint).answer =
      (generate_medical_response env q hint).response ∧
    (generate_medical_response env q hint).timestamp = env.now := by
  have hex : ∃ text lang src em er conf,
      generate_medical_response env q hint =
        format_response text lang src em er conf env.now := by
    unfold generate_medical_response
    cases hb : env.medqaInitRaises with
    | true =>
      rw [if_pos rfl]
      exact ⟨_, _, _, _, _, _, rfl⟩
    | false =>
      rw [if_neg (by simp)]
      cases hc : check_emergency_condition q (resolve_language hint q) with
      | some er => exact ⟨_, _, _, _, _, _, rfl⟩
      | none =>
        obtain ⟨text, lang, src, conf, h⟩ :=
          afterEmergency_shape env q (resolve_language hint q)
        exact ⟨text, lang, src, false, false, conf, h⟩
  obtain ⟨text, lang, src, em, er, conf, hEq⟩ := hex
  refine ⟨⟨text, lang, src, em, er, conf, hEq⟩, ?_, ?_⟩
  · rw [hEq]; rfl
  · rw [hEq]; rfl
